import Mathlib

/-!
# File system calls of `kern/syscall/file_syscalls.c`

A shallow embedding of `sys_open`, `sys_read`, `sys_write`, `sys_close` and
`sys_meld`.  The kernel state is passed explicitly:

* the kernel heap of `struct openfile` objects is a list indexed by address,
  an entry `none` being memory that holds no live object;
* a `struct openfile *` is an `Option Nat`: `none` is `NULL`, `some a` is the
  address `a`;
* the file table of the current process is the list of its slots;
* following a pointer that is `NULL` or does not address a live object is a
  fault: the call has no result (`none`);
* a local variable that C leaves uninitialised (`file`, `oldfile`) is an extra
  argument of the embedded function: the value the stack slot happens to hold;
* an `int *` out-parameter is the value before the call, and the value after
  the call is part of the result;
* a new object takes the next address of the heap; an address is not used
  again after its object was destroyed;
* `int`, `size_t` and `off_t` values are integers without a bound: the only
  arithmetic is the addition of the size to the offset and the steps of the
  reference count, taken without overflow;
* locks are not represented: one system call runs at a time;
* `kmalloc` of the path buffers and `copyinstr` are not represented: the path
  arguments are the strings as copied into the kernel (the source ignores the
  result of `copyinstr`).  `sys_open` and `sys_meld` allocate these buffers
  first and never free them, so the kernel memory outside the three
  components of `Kernel` is not covered by any statement below.

`openfile.c`, `filetable.c`, the VFS and the header constants are not part of
the sources at hand; they are modelled from the specification and marked so.
-/

namespace FileSyscalls

/-! ## Constants of the headers -/

/-- Modelled from the spec: `kern/errno.h` is not among the sources.  The error
`InvalidArgument`, a positive errno value (the number of the OS/161 header). -/
def EINVAL : Int := 8

/-- Modelled from the spec: `kern/errno.h` is not among the sources.  The error
`BadDescriptor`, a positive errno value (the number of the OS/161 header). -/
def EBADF : Int := 30

/-- Modelled from the spec: `kern/errno.h` is not among the sources.  The error
`NoSpace` reported by a full file table, a positive errno value. -/
def ENOSPC : Int := 36

/-- Modelled from the spec: `kern/errno.h` is not among the sources.  The error
`ResolutionError` of a failed path lookup, a positive errno value. -/
def ENOENT : Int := 19

/-- Modelled from the spec: `kern/fcntl.h` is not among the sources.  Open for
reading only. -/
def O_RDONLY : Int := 0

/-- Modelled from the spec: `kern/fcntl.h` is not among the sources.  Open for
writing only. -/
def O_WRONLY : Int := 1

/-- Modelled from the spec: `kern/fcntl.h` is not among the sources.  Mask of
the access mode bits. -/
def O_ACCMODE : Int := 3

/-- Modelled from the spec: `kern/fcntl.h` is not among the sources.  Create
the file if it does not exist. -/
def O_CREAT : Int := 4

/-- Modelled from the spec: `kern/fcntl.h` is not among the sources.  Fail if
the file exists. -/
def O_EXCL : Int := 8

/-- Modelled from the spec: `kern/fcntl.h` is not among the sources.  Truncate
the file on open. -/
def O_TRUNC : Int := 16

/-- Modelled from the spec: `kern/fcntl.h` is not among the sources.  Writes go
to the end of the file. -/
def O_APPEND : Int := 32

/-- Modelled from the spec: `kern/fcntl.h` is not among the sources.  Do not
make the file the controlling terminal. -/
def O_NOCTTY : Int := 64

/-- The local constant `allflags` of `sys_open`:
`O_ACCMODE | O_CREAT | O_EXCL | O_TRUNC | O_APPEND | O_NOCTTY`. -/
def allflags : Int :=
  Int.lor O_ACCMODE (Int.lor O_CREAT (Int.lor O_EXCL (Int.lor O_TRUNC (Int.lor O_APPEND O_NOCTTY))))

/-! ## Data model -/

/-- A `struct openfile *`: `none` is `NULL`, `some a` the address `a`. -/
abbrev Ptr := Option Nat

/-- The open-file object `struct openfile`: the vnode it owns, the flags it was
opened with, the seek position and the reference count (the offset lock is not
represented). -/
structure openfile where
  of_vnode : Nat
  of_accmode : Int
  of_offset : Int
  of_refcount : Int
deriving DecidableEq, Repr

/-- Modelled from the spec: the VFS and the vnode operations are external
collaborators (section 6: `resolve_and_open`, `release_handle`, `do_read`,
`do_write`).  `D` is the state of the collaborator.
* `vfs_open d path flags mode` gives the status (0 or an errno), the new state
  and the vnode;
* `vfs_close d vn` releases the vnode;
* `VOP_READ d vn offset size` gives the status, the new state and the bytes
  transferred to the buffer;
* `VOP_WRITE d vn offset bytes` gives the status, the new state and the number
  of bytes written. -/
structure Vfs (D : Type) where
  vfs_open : D → String → Int → Int → Int × D × Nat
  vfs_close : D → Nat → D
  VOP_READ : D → Nat → Int → Nat → Int × D × List Nat
  VOP_WRITE : D → Nat → Int → List Nat → Int × D × Nat

/-- The kernel state the system calls work on: the state of the VFS, the heap
of open-file objects and the slots `ft_openfiles` of `curproc->p_filetable`. -/
structure Kernel (D : Type) where
  disk : D
  heap : List (Option openfile)
  p_filetable : List Ptr

/-- The object a pointer addresses, `none` when the pointer is `NULL` or the
address holds no live object. -/
def deref (heap : List (Option openfile)) (p : Ptr) : Option (Nat × openfile) :=
  match p with
  | none => none
  | some a =>
    match heap.getD a none with
    | none => none
    | some o => some (a, o)

/-- The reference count of the object at an address, 0 when no live object is
there. -/
def refcount_at (heap : List (Option openfile)) (a : Nat) : Int :=
  match heap.getD a none with
  | none => 0
  | some o => o.of_refcount

/-- The `size` bytes of memory that start at a buffer (bytes past the end of
the list read as 0). -/
def buf_bytes (buf : List Nat) (size : Nat) : List Nat :=
  (List.range size).map (fun i => buf.getD i 0)

/-- The buffer after `data` was copied to its start. -/
def buf_store (buf : List Nat) (data : List Nat) : List Nat :=
  data ++ buf.drop data.length

/-! ## The open-file object (`openfile.c`) -/

/-- Modelled from the spec: `openfile_open` of `openfile.c` is not among the
sources.  "resolves `path` through the VFS collaborator to produce a new
OpenFileObject (refcount 1)"; the object records the flags and starts at
offset 0.  On failure the status of the VFS is returned and `*ret` keeps its
value. -/
def openfile_open {D : Type} (V : Vfs D) (k : Kernel D) (filename : String)
    (openflags mode : Int) (ret : Ptr) : Int × Kernel D × Ptr :=
  match V.vfs_open k.disk filename openflags mode with
  | (result, d, vn) =>
    if result ≠ 0 then (result, { k with disk := d }, ret)
    else
      (0, { disk := d,
            heap := k.heap ++ [some ⟨vn, openflags, 0, 1⟩],
            p_filetable := k.p_filetable },
       some k.heap.length)

/-- Modelled from the spec: `openfile_incref` of `openfile.c` is not among the
sources.  `acquire`: "increments `refcount`; never fails". -/
def openfile_incref (heap : List (Option openfile)) (a : Nat) (o : openfile) :
    List (Option openfile) :=
  heap.set a (some { o with of_refcount := o.of_refcount + 1 })

/-- Modelled from the spec: `openfile_decref` of `openfile.c` is not among the
sources.  `release`: "decrements `refcount`; when it reaches 0, releases
`handle` and frees the object". -/
def openfile_decref {D : Type} (V : Vfs D) (disk : D) (heap : List (Option openfile))
    (file : Ptr) : Option (D × List (Option openfile)) :=
  match deref heap file with
  | none => none
  | some (a, o) =>
    if o.of_refcount - 1 = 0 then some (V.vfs_close disk o.of_vnode, heap.set a none)
    else some (disk, heap.set a (some { o with of_refcount := o.of_refcount - 1 }))

/-! ## The file table (`filetable.c`) -/

/-- Modelled from the spec: `filetable_okfd` of `filetable.c` is not among the
sources.  `is_valid`: "range/occupancy check without retrieving the object". -/
def filetable_okfd (ft : List Ptr) (fd : Int) : Bool :=
  decide (0 ≤ fd) && decide (fd < ft.length) && (ft.getD fd.toNat none).isSome

/-- Modelled from the spec: `filetable_get` of `filetable.c` is not among the
sources.  `get`: "returns the current object reference for `fd` without
removing it; fails with `BadDescriptor` if `fd` is out of range or the slot is
empty".  On failure `*ret` keeps its value. -/
def filetable_get (ft : List Ptr) (fd : Int) (ret : Ptr) : Int × Ptr :=
  if 0 ≤ fd ∧ fd < ft.length then
    match ft.getD fd.toNat none with
    | none => (EBADF, ret)
    | some a => (0, some a)
  else (EBADF, ret)

/-- Modelled from the spec: `filetable_put` of `filetable.c` is not among the
sources.  `put`: "signals the table that the caller is done using the
reference ... does not itself destroy anything": the table is unchanged. -/
def filetable_put (ft : List Ptr) (_fd : Int) (_file : Ptr) : List Ptr := ft

/-- The index of the first empty slot of a table. -/
def lowest_free : List Ptr → Option Nat
  | [] => none
  | none :: _ => some 0
  | some _ :: t => (lowest_free t).map (fun i => i + 1)

/-- Modelled from the spec: `filetable_place` of `filetable.c` is not among the
sources.  `place`: "finds the lowest free slot, stores a reference to
`object` ..., returns its index.  Fails with `NoSpace` if no slot is free".  On
failure `*fd` keeps its value. -/
def filetable_place (ft : List Ptr) (file : Ptr) (fd : Int) : Int × List Ptr × Int :=
  match lowest_free ft with
  | none => (ENOSPC, ft, fd)
  | some i => (0, ft.set i file, (i : Int))

/-- Modelled from the spec: `filetable_placeat` of `filetable.c` is not among
the sources.  `place_at`: "atomically swaps the slot's contents with the given
value ...  Fails with `BadDescriptor` if `fd` is out of range".  On failure
`*oldfile_ret` keeps its value. -/
def filetable_placeat (ft : List Ptr) (newfile : Ptr) (fd : Int) (oldfile_ret : Ptr) :
    Int × List Ptr × Ptr :=
  if 0 ≤ fd ∧ fd < ft.length then
    (0, ft.set fd.toNat newfile, ft.getD fd.toNat none)
  else (EBADF, ft, oldfile_ret)

/-! ## The system calls (`file_syscalls.c`) -/

/-- The function `sys_open`.  `retval` is `*retval` before the call and `file`
the uninitialised local; the result is the returned `int`, the kernel state and
`*retval` after the call.  The result of `filetable_place` is not looked at.
The `kmalloc(PATH_MAX)` and the `copyinstr` that come before the test of the
flags are outside the state: `upath` is the path as copied. -/
def sys_open {D : Type} (V : Vfs D) (k : Kernel D) (upath : String) (flags mode : Int)
    (retval : Int) (file : Ptr) : Int × Kernel D × Int :=
  if Int.land flags allflags = flags then
    match openfile_open V k upath flags mode file with
    | (result, k1, file1) =>
      if result ≠ 0 then (result, k1, retval)
      else
        match filetable_place k1.p_filetable file1 retval with
        | (_, ft, retval1) => (0, { k1 with p_filetable := ft }, retval1)
  else (-1, k, retval)

/-- The function `sys_read`.  `file` is the uninitialised local; the result is
the returned `int`, the kernel state and the buffer after the call, or `none`
when an invalid pointer is followed.  The result of `filetable_get` is not
looked at. -/
def sys_read {D : Type} (V : Vfs D) (k : Kernel D) (fd : Int) (buf : List Nat) (size : Nat)
    (file : Ptr) : Option (Int × Kernel D × List Nat) :=
  match deref k.heap (filetable_get k.p_filetable fd file).2 with
  | none => none
  | some (a, o) =>
    match V.VOP_READ k.disk o.of_vnode o.of_offset size with
    | (result, d, data) =>
      let o1 : openfile := { o with of_offset := (size : Int) + o.of_offset }
      some (result,
            { disk := d,
              heap := openfile_incref k.heap a o1,
              p_filetable := filetable_put k.p_filetable fd (some a) },
            buf_store buf data)

/-- The function `sys_write`.  `file` is the uninitialised local; the result is
the returned `int` and the kernel state after the call, or `none` when an
invalid pointer is followed.  The result of `filetable_get` is not looked
at. -/
def sys_write {D : Type} (V : Vfs D) (k : Kernel D) (fd : Int) (buf : List Nat) (size : Nat)
    (file : Ptr) : Option (Int × Kernel D) :=
  match deref k.heap (filetable_get k.p_filetable fd file).2 with
  | none => none
  | some (a, o) =>
    match V.VOP_WRITE k.disk o.of_vnode o.of_offset (buf_bytes buf size) with
    | (result, d, _) =>
      let o1 : openfile := { o with of_offset := (size : Int) + o.of_offset }
      some (result,
            { disk := d,
              heap := openfile_incref k.heap a o1,
              p_filetable := filetable_put k.p_filetable fd (some a) })

/-- The function `sys_close`.  `oldfile` is the uninitialised local; the result
is the returned `int` and the kernel state after the call, or `none` when an
invalid pointer is followed. -/
def sys_close {D : Type} (V : Vfs D) (k : Kernel D) (fd : Int) (oldfile : Ptr) :
    Option (Int × Kernel D) :=
  if filetable_okfd k.p_filetable fd = false then some (-1, k)
  else
    match filetable_placeat k.p_filetable none fd oldfile with
    | (_, ft, oldfile1) =>
      if oldfile1 = none then some (-1, { k with p_filetable := ft })
      else
        match openfile_decref V k.disk k.heap oldfile1 with
        | none => none
        | some (d, heap) => some (0, { disk := d, heap := heap, p_filetable := ft })

/-- The loop `for(i = 0;i<4;++i)` of `sys_meld` with `n` iterations left: two
reads of 4 bytes, two writes of 4 bytes, every result ignored.  The result is
the kernel state and the two buffers. -/
def meld_loop {D : Type} (V : Vfs D) (fd1 fd2 fdout : Int) (stale : Ptr) :
    Nat → Kernel D → List Nat → List Nat → Option (Kernel D × List Nat × List Nat)
  | 0, k, newfile1, newfile2 => some (k, newfile1, newfile2)
  | n + 1, k, newfile1, newfile2 =>
    match sys_read V k fd1 newfile1 4 stale with
    | none => none
    | some (_, k1, b1) =>
      match sys_read V k1 fd2 newfile2 4 stale with
      | none => none
      | some (_, k2, b2) =>
        match sys_write V k2 fdout b1 4 stale with
        | none => none
        | some (_, k3) =>
          match sys_write V k3 fdout b2 4 stale with
          | none => none
          | some (_, k4) => meld_loop V fd1 fd2 fdout stale n k4 b1 b2

/-- The function `sys_meld`.  `newfile1` and `newfile2` are the contents of the
two `kmalloc`ed buffers and `stale` the value of the uninitialised pointers;
the result is the returned `int` and the kernel state, or `none` when an
invalid pointer is followed.  The descriptors start at 0 and the results of
`filetable_place`, `sys_read`, `sys_write` and `sys_close` are not looked
at. -/
def sys_meld {D : Type} (V : Vfs D) (k : Kernel D) (pn1 pn2 pn3 : String)
    (newfile1 newfile2 : List Nat) (stale : Ptr) : Option (Int × Kernel D) :=
  match openfile_open V k pn1 O_RDONLY 0 stale with
  | (result1, k1, firstfile) =>
    if result1 ≠ 0 then some (result1, k1)
    else
      match openfile_open V k1 pn2 O_RDONLY 0 stale with
      | (result2, k2, secondfile) =>
        if result2 ≠ 0 then some (result2, k2)
        else
          match openfile_open V k2 pn3 (Int.lor O_WRONLY (Int.lor O_CREAT O_APPEND)) 0 stale with
          | (result3, k3, outputfile) =>
            if result3 ≠ 0 then some (result3, k3)
            else
              match filetable_place k3.p_filetable firstfile 0 with
              | (_, ft1, fd1) =>
                match filetable_place ft1 secondfile 0 with
                | (_, ft2, fd2) =>
                  match filetable_place ft2 outputfile 0 with
                  | (_, ft3, fdout) =>
                    match meld_loop V fd1 fd2 fdout stale 4 { k3 with p_filetable := ft3 }
                        newfile1 newfile2 with
                    | none => none
                    | some (k4, _, _) =>
                      match sys_close V k4 fd1 stale with
                      | none => none
                      | some (_, k5) =>
                        match sys_close V k5 fd2 stale with
                        | none => none
                        | some (_, k6) =>
                          match sys_close V k6 fdout stale with
                          | none => none
                          | some (_, k7) => some (0, k7)

/-! ## An in-memory collaborator -/

/-- The index of the file of a given name. -/
def ram_lookup : List (String × List Nat) → String → Option Nat
  | [], _ => none
  | (n, _) :: t, path => if n = path then some 0 else (ram_lookup t path).map (fun i => i + 1)

/-- Modelled from the spec: an in-memory instance of the collaborator contract
of section 6.  The state is the list of the files (name and bytes) and a vnode
is an index into it.  Opening a missing file creates it under `O_CREAT` and
fails with `ENOENT` otherwise; a read transfers the bytes that exist between
the offset and the end of the file, at most `size` of them (none at
end-of-file, which is not an error); a write stores all its bytes at the
offset. -/
def ramfs : Vfs (List (String × List Nat)) where
  vfs_open := fun d path flags _ =>
    match ram_lookup d path with
    | some i => (0, d, i)
    | none =>
      if Int.land flags O_CREAT ≠ 0 then (0, d ++ [(path, [])], d.length)
      else (ENOENT, d, 0)
  vfs_close := fun d _ => d
  VOP_READ := fun d vn offset size =>
    if offset < 0 then (EINVAL, d, [])
    else (0, d, ((d.getD vn ("", [])).2.drop offset.toNat).take size)
  VOP_WRITE := fun d vn offset bytes =>
    if offset < 0 then (EINVAL, d, 0)
    else
      let old := (d.getD vn ("", [])).2
      let data := buf_bytes old offset.toNat ++ bytes ++ old.drop (offset.toNat + bytes.length)
      (0, d.set vn ((d.getD vn ("", [])).1, data), bytes.length)

/-! ## Concrete kernel states -/

/-- A disk with the file `A` of 8 bytes and the file `B` of 4 bytes. -/
def diskAB : List (String × List Nat) :=
  [("A", [1, 2, 3, 4, 5, 6, 7, 8]), ("B", [11, 12, 13, 14])]

/-- A kernel with no open-file object and a table of four empty slots. -/
def k_empty : Kernel (List (String × List Nat)) :=
  { disk := diskAB, heap := [], p_filetable := [none, none, none, none] }

/-- A kernel in which `A` is open on descriptor 0 (the only occupied slot of
two) at offset 0. -/
def k_one : Kernel (List (String × List Nat)) :=
  { disk := diskAB, heap := [some ⟨0, 0, 0, 1⟩], p_filetable := [some 0, none] }

/-- A kernel whose table of two slots is full: `A` on descriptor 0 and `B` on
descriptor 1. -/
def k_full : Kernel (List (String × List Nat)) :=
  { disk := diskAB, heap := [some ⟨0, 0, 0, 1⟩, some ⟨1, 0, 0, 1⟩],
    p_filetable := [some 0, some 1] }

/-- A kernel in which the file `S` of 2 bytes is open on descriptor 0 at
offset 0. -/
def k_short : Kernel (List (String × List Nat)) :=
  { disk := [("S", [21, 22])], heap := [some ⟨0, 0, 0, 1⟩], p_filetable := [some 0] }

/-- The kernel `k_one` after descriptor 0 was closed. -/
def k_closed : Kernel (List (String × List Nat)) :=
  { disk := diskAB, heap := [none], p_filetable := [none, none] }

/-- A kernel in which the file `S` of 2 bytes is open on descriptor 0 with the
offset at the end of the file. -/
def k_eof : Kernel (List (String × List Nat)) :=
  { disk := [("S", [21, 22])], heap := [some ⟨0, 0, 2, 1⟩], p_filetable := [some 0] }

/-- A kernel with the file `A` of 8 bytes, the file `B` of 4 bytes, the empty
file `OUT`, no open-file object and a table of four empty slots. -/
def k_meld : Kernel (List (String × List Nat)) :=
  { disk := [("A", [1, 2, 3, 4, 5, 6, 7, 8]), ("B", [11, 12, 13, 14]), ("OUT", [])],
    heap := [], p_filetable := [none, none, none, none] }

/-- Modelled from the spec: the error `IoError` of a failed transfer, a
positive errno value. -/
def IoError : Int := 32

/-- Modelled from the spec: the in-memory collaborator with a device on which
every read fails with `IoError` and transfers nothing. -/
def brokenfs : Vfs (List (String × List Nat)) :=
  { ramfs with VOP_READ := fun d _ _ _ => (IoError, d, []) }

/-! ## General facts -/

theorem lowest_free_spec (ft : List Ptr) (h : none ∈ ft) :
    ∃ i, lowest_free ft = some i ∧ i < ft.length ∧ ft.getD i none = none := by
  induction ft with
  | nil => simp at h
  | cons x t ih =>
    cases x with
    | none => exact ⟨0, rfl, by simp, rfl⟩
    | some a =>
      have ht : none ∈ t := by simpa using h
      obtain ⟨i, h1, h2, h3⟩ := ih ht
      exact ⟨i + 1, by simp [lowest_free, h1], by simpa using h2, by simpa using h3⟩

theorem set_set_none_of_getD (ft : List Ptr) (i : Nat) (x : Ptr) (hi : i < ft.length)
    (h : ft.getD i none = none) : (ft.set i x).set i none = ft := by
  rw [List.set_set]
  apply List.ext_getElem
  · simp
  · intro n h1 h2
    by_cases hn : i = n
    · subst hn
      rw [List.getD_eq_getElem _ _ hi] at h
      simp [h]
    · simp [List.getElem_set_ne hn]

theorem getD_set_self (ft : List Ptr) (i : Nat) (x : Ptr) (hi : i < ft.length) :
    (ft.set i x).getD i none = x := by
  have : i < (ft.set i x).length := by simpa using hi
  rw [List.getD_eq_getElem _ _ this]
  simp

theorem getD_append_last (heap : List (Option openfile)) (x : Option openfile) :
    (heap ++ [x]).getD heap.length none = x := by
  have : heap.length < (heap ++ [x]).length := by simp
  rw [List.getD_eq_getElem _ _ this]
  simp

theorem set_append_last (heap : List (Option openfile)) (x y : Option openfile) :
    (heap ++ [x]).set heap.length y = heap ++ [y] := by
  induction heap with
  | nil => rfl
  | cons a t ih => simp [ih]

/-- On an occupied descriptor `sys_read` returns the status of `VOP_READ`,
adds the requested size to the offset and one to the reference count. -/
theorem sys_read_occupied {D : Type} (V : Vfs D) (k : Kernel D) (fd : Int) (buf : List Nat)
    (size : Nat) (file : Ptr) (a : Nat) (o : openfile)
    (hfd : 0 ≤ fd ∧ fd < k.p_filetable.length)
    (hslot : k.p_filetable.getD fd.toNat none = some a)
    (hlive : k.heap.getD a none = some o) :
    sys_read V k fd buf size file =
      some ((V.VOP_READ k.disk o.of_vnode o.of_offset size).1,
            { disk := (V.VOP_READ k.disk o.of_vnode o.of_offset size).2.1,
              heap := k.heap.set a (some ⟨o.of_vnode, o.of_accmode, (size : Int) + o.of_offset,
                                          o.of_refcount + 1⟩),
              p_filetable := k.p_filetable },
            buf_store buf (V.VOP_READ k.disk o.of_vnode o.of_offset size).2.2) := by
  unfold sys_read filetable_get
  rw [if_pos hfd, hslot]
  simp only [deref, hlive, openfile_incref, filetable_put]

/-- On an occupied descriptor `sys_write` returns the status of `VOP_WRITE`,
adds the requested size to the offset and one to the reference count. -/
theorem sys_write_occupied {D : Type} (V : Vfs D) (k : Kernel D) (fd : Int) (buf : List Nat)
    (size : Nat) (file : Ptr) (a : Nat) (o : openfile)
    (hfd : 0 ≤ fd ∧ fd < k.p_filetable.length)
    (hslot : k.p_filetable.getD fd.toNat none = some a)
    (hlive : k.heap.getD a none = some o) :
    sys_write V k fd buf size file =
      some ((V.VOP_WRITE k.disk o.of_vnode o.of_offset (buf_bytes buf size)).1,
            { disk := (V.VOP_WRITE k.disk o.of_vnode o.of_offset (buf_bytes buf size)).2.1,
              heap := k.heap.set a (some ⟨o.of_vnode, o.of_accmode, (size : Int) + o.of_offset,
                                          o.of_refcount + 1⟩),
              p_filetable := k.p_filetable }) := by
  unfold sys_write filetable_get
  rw [if_pos hfd, hslot]
  simp only [deref, hlive, openfile_incref, filetable_put]

/-! ## `sys_open` with unrecognised flag bits -/

/-- C2, counterexample: the flags value 128 has a bit outside the recognised
mask, and `sys_open` returns -1 for it, which is not the errno `EINVAL`. -/
theorem bad_flags_result_not_EINVAL :
    Int.land 128 allflags ≠ 128 ∧
    ¬ ((sys_open ramfs k_empty "A" 128 0 0 none).1 = EINVAL) := by
  constructor
  · decide
  · decide

/-- C2, amended: for every flags value with a bit outside the recognised mask,
`sys_open` returns -1, does not call `openfile_open` (the state of the VFS is
the one before the call and the result is the same for every collaborator),
and leaves the file table unchanged. -/
theorem sys_open_bad_flags {D : Type} (V : Vfs D) (k : Kernel D) (upath : String)
    (flags mode retval : Int) (file : Ptr) (h : Int.land flags allflags ≠ flags) :
    (sys_open V k upath flags mode retval file).1 = -1 ∧
    (sys_open V k upath flags mode retval file).2.1.p_filetable = k.p_filetable ∧
    (sys_open V k upath flags mode retval file).2.1.disk = k.disk ∧
    ∀ W : Vfs D, sys_open W k upath flags mode retval file =
      sys_open V k upath flags mode retval file := by
  have hres : ∀ W : Vfs D, sys_open W k upath flags mode retval file = (-1, k, retval) := by
    intro W
    unfold sys_open
    rw [if_neg h]
  refine ⟨?_, ?_, ?_, ?_⟩
  · rw [hres V]
  · rw [hres V]
  · rw [hres V]
  · intro W
    rw [hres W, hres V]

/-- The rejection of unrecognised flags at the flags value 128, on the empty
table `k_empty`. -/
theorem sys_open_bad_flags_witness :
    Int.land 128 allflags ≠ 128 ∧
    (sys_open ramfs k_empty "A" 128 0 7 none).1 = -1 ∧
    (sys_open ramfs k_empty "A" 128 0 7 none).2.1.p_filetable = k_empty.p_filetable ∧
    (sys_open ramfs k_empty "A" 128 0 7 none).2.1.disk = k_empty.disk ∧
    ∀ W : Vfs (List (String × List Nat)), sys_open W k_empty "A" 128 0 7 none =
      sys_open ramfs k_empty "A" 128 0 7 none :=
  ⟨by decide, sys_open_bad_flags ramfs k_empty "A" 128 0 7 none (by decide)⟩

/-! ## `sys_close` -/

/-- C3, counterexample: closing descriptor 0 of `k_one` twice, the first call
returns 0 and the second returns -1, which is not the errno `EBADF`. -/
theorem second_close_result_not_EBADF :
    sys_close ramfs k_one 0 none = some (0, k_closed) ∧
    sys_close ramfs k_closed 0 none = some (-1, k_closed) ∧
    ¬ ((sys_close ramfs k_closed 0 none).map Prod.fst = some EBADF) := by
  refine ⟨rfl, rfl, ?_⟩
  rw [show sys_close ramfs k_closed 0 none = some (-1, k_closed) from rfl]
  decide

/-- C3, amended: when the slot of `fd` holds a live object, `sys_close`
returns 0 and empties the slot, and a second `sys_close` of `fd` returns -1 and
changes nothing; on a descriptor that is out of range or whose slot is empty
`sys_close` returns -1 and changes nothing. -/
theorem sys_close_twice {D : Type} (V : Vfs D) (k : Kernel D) (fd : Int)
    (oldfile oldfile2 : Ptr) :
    (∀ a o, 0 ≤ fd → fd < k.p_filetable.length →
        k.p_filetable.getD fd.toNat none = some a → k.heap.getD a none = some o →
        ∃ k1, sys_close V k fd oldfile = some (0, k1) ∧
          k1.p_filetable = k.p_filetable.set fd.toNat none ∧
          sys_close V k1 fd oldfile2 = some (-1, k1)) ∧
    ((fd < 0 ∨ (k.p_filetable.length : Int) ≤ fd ∨ k.p_filetable.getD fd.toNat none = none) →
        sys_close V k fd oldfile = some (-1, k)) := by
  constructor
  · intro a o h0 h1 hslot hlive
    have hn : fd.toNat < k.p_filetable.length := by omega
    have hok : filetable_okfd k.p_filetable fd = true := by
      simp only [filetable_okfd, hslot]
      simp [h0, h1]
    have hok2 : ∀ ft : List Ptr, ft = k.p_filetable.set fd.toNat none →
        filetable_okfd ft fd = false := by
      intro ft hft
      subst hft
      simp only [filetable_okfd, getD_set_self _ _ _ hn]
      simp
    by_cases hz : o.of_refcount - 1 = 0
    · refine ⟨{ disk := V.vfs_close k.disk o.of_vnode, heap := k.heap.set a none,
                p_filetable := k.p_filetable.set fd.toNat none }, ?_, rfl, ?_⟩
      · unfold sys_close
        rw [hok]
        simp only [filetable_placeat, if_pos (And.intro h0 h1), hslot, openfile_decref, deref,
          hlive, if_pos hz]
        simp
      · unfold sys_close
        rw [hok2 _ rfl]
        simp
    · refine ⟨{ disk := k.disk,
                heap := k.heap.set a (some { o with of_refcount := o.of_refcount - 1 }),
                p_filetable := k.p_filetable.set fd.toNat none }, ?_, rfl, ?_⟩
      · unfold sys_close
        rw [hok]
        simp only [filetable_placeat, if_pos (And.intro h0 h1), hslot, openfile_decref, deref,
          hlive, if_neg hz]
        simp
      · unfold sys_close
        rw [hok2 _ rfl]
        simp
  · intro h
    have hok : filetable_okfd k.p_filetable fd = false := by
      unfold filetable_okfd
      rcases h with h | h | h
      · have : ¬ (0 ≤ fd) := by omega
        simp [this]
      · have : ¬ (fd < k.p_filetable.length) := by omega
        simp [this]
      · rw [h]
        simp
    unfold sys_close
    rw [hok]
    simp

/-- The results of closing on `k_one`: descriptor 0 is occupied, descriptor 1
is empty, the descriptors -1 and 2 are out of range. -/
theorem sys_close_twice_witness :
    (∃ k1, sys_close ramfs k_one 0 none = some (0, k1) ∧
      k1.p_filetable = k_one.p_filetable.set 0 none ∧
      sys_close ramfs k1 0 (some 5) = some (-1, k1)) ∧
    sys_close ramfs k_one 1 none = some (-1, k_one) ∧
    sys_close ramfs k_one (-1) none = some (-1, k_one) ∧
    sys_close ramfs k_one 2 none = some (-1, k_one) :=
  ⟨(sys_close_twice ramfs k_one 0 none (some 5)).1 0 ⟨0, 0, 0, 1⟩ (by decide) (by decide) rfl rfl,
   (sys_close_twice ramfs k_one 1 none none).2 (Or.inr (Or.inr rfl)),
   (sys_close_twice ramfs k_one (-1) none none).2 (Or.inl (by decide)),
   (sys_close_twice ramfs k_one 2 none none).2 (Or.inr (Or.inl (by decide)))⟩

/-! ## `sys_open` followed by `sys_close` -/

/-- C7: when the flags are within the recognised mask, the VFS opens the path
and the table has a free slot, `sys_open` returns 0 and hands back a descriptor
`fd` of a slot that was empty and now holds the created object with reference
count 1; `sys_close fd` then returns 0, the table is the one before the open,
and the created object is destroyed (reference count 0 again, its vnode
released). -/
theorem sys_open_close_roundtrip {D : Type} (V : Vfs D) (k : Kernel D) (upath : String)
    (flags mode retval : Int) (file oldfile : Ptr) (d : D) (vn : Nat)
    (hflags : Int.land flags allflags = flags)
    (hopen : V.vfs_open k.disk upath flags mode = (0, d, vn))
    (hfree : none ∈ k.p_filetable) :
    ∃ (i : Nat) (k1 k2 : Kernel D),
      sys_open V k upath flags mode retval file = (0, k1, (i : Int)) ∧
      i < k.p_filetable.length ∧
      k.p_filetable.getD i none = none ∧
      k1.p_filetable = k.p_filetable.set i (some k.heap.length) ∧
      refcount_at k.heap k.heap.length = 0 ∧
      refcount_at k1.heap k.heap.length = 1 ∧
      sys_close V k1 (i : Int) oldfile = some (0, k2) ∧
      k2.p_filetable = k.p_filetable ∧
      k2.heap = k.heap ++ [none] ∧
      refcount_at k2.heap k.heap.length = 0 ∧
      k2.disk = V.vfs_close d vn := by
  obtain ⟨i, hlow, hi, hget⟩ := lowest_free_spec k.p_filetable hfree
  have hopen1 : sys_open V k upath flags mode retval file =
      (0, { disk := d, heap := k.heap ++ [some ⟨vn, flags, 0, 1⟩],
            p_filetable := k.p_filetable.set i (some k.heap.length) }, (i : Int)) := by
    unfold sys_open
    rw [if_pos hflags]
    simp only [openfile_open, hopen, filetable_place]
    simp [hlow]
  have hi2 : i < (k.p_filetable.set i (some k.heap.length)).length := by simpa using hi
  have hok : filetable_okfd (k.p_filetable.set i (some k.heap.length)) (i : Int) = true := by
    simp only [filetable_okfd, Int.toNat_ofNat, getD_set_self _ _ _ hi]
    simp [hi]
  have hrange : (0 : Int) ≤ (i : Int) ∧
      (i : Int) < ((k.p_filetable.set i (some k.heap.length)).length : Int) := by
    constructor
    · omega
    · exact_mod_cast hi2
  refine ⟨i, _, { disk := V.vfs_close d vn, heap := k.heap ++ [none],
                  p_filetable := k.p_filetable }, hopen1, hi, hget, rfl, ?_, ?_, ?_, rfl, rfl,
          ?_, rfl⟩
  · unfold refcount_at
    rw [List.getD_eq_default _ _ (le_refl _)]
  · simp only [refcount_at, getD_append_last]
  · unfold sys_close
    simp only [hok, filetable_placeat, if_pos hrange, Int.toNat_ofNat,
      getD_set_self _ _ _ hi, openfile_decref, deref, getD_append_last,
      set_set_none_of_getD _ _ _ hi hget, set_append_last]
    simp
  · simp only [refcount_at, getD_append_last]

/-- The round trip of opening `B` on `k_one`, whose descriptor 1 is free, and
closing it again. -/
theorem sys_open_close_roundtrip_witness :
    ∃ (i : Nat) (k1 k2 : Kernel (List (String × List Nat))),
      sys_open ramfs k_one "B" 0 0 (-7) none = (0, k1, (i : Int)) ∧
      i < k_one.p_filetable.length ∧
      k_one.p_filetable.getD i none = none ∧
      k1.p_filetable = k_one.p_filetable.set i (some k_one.heap.length) ∧
      refcount_at k_one.heap k_one.heap.length = 0 ∧
      refcount_at k1.heap k_one.heap.length = 1 ∧
      sys_close ramfs k1 (i : Int) none = some (0, k2) ∧
      k2.p_filetable = k_one.p_filetable ∧
      k2.heap = k_one.heap ++ [none] ∧
      refcount_at k2.heap k_one.heap.length = 0 ∧
      k2.disk = ramfs.vfs_close diskAB 1 :=
  sys_open_close_roundtrip ramfs k_one "B" 0 0 (-7) none none diskAB 1
    (by decide) rfl (by decide)

/-! ## Behaviour at the inputs where the source departs from its contract -/

/-- C1: on `k_one` (descriptor 0 occupied, descriptor 1 empty, table of two
slots) the lookup of the descriptors 1, -1 and 2 fails with `EBADF`, yet
`sys_read` and `sys_write` go on with the value the uninitialised `file`
holds: when that is the address of the live object 0 they do the transfer on
it, return 0 and move its offset; when it is `NULL` they fault. -/
theorem sys_read_write_bad_fd_unchecked :
    (filetable_get k_one.p_filetable 1 (some 0)).1 = EBADF ∧
    (filetable_get k_one.p_filetable (-1) (some 0)).1 = EBADF ∧
    (filetable_get k_one.p_filetable 2 (some 0)).1 = EBADF ∧
    sys_read ramfs k_one 1 [0, 0, 0, 0] 4 (some 0) =
      some (0, { disk := diskAB, heap := [some ⟨0, 0, 4, 2⟩], p_filetable := [some 0, none] },
            [1, 2, 3, 4]) ∧
    sys_read ramfs k_one (-1) [0, 0, 0, 0] 4 (some 0) =
      some (0, { disk := diskAB, heap := [some ⟨0, 0, 4, 2⟩], p_filetable := [some 0, none] },
            [1, 2, 3, 4]) ∧
    sys_write ramfs k_one 2 [9, 9, 9, 9] 4 (some 0) =
      some (0, { disk := [("A", [9, 9, 9, 9, 5, 6, 7, 8]), ("B", [11, 12, 13, 14])],
                 heap := [some ⟨0, 0, 4, 2⟩], p_filetable := [some 0, none] }) ∧
    sys_read ramfs k_one 1 [0, 0, 0, 0] 4 none = none ∧
    sys_write ramfs k_one 1 [9, 9, 9, 9] 4 none = none :=
  ⟨rfl, rfl, rfl, rfl, rfl, rfl, rfl, rfl⟩

/-- C4: on the full table `k_full`, `filetable_place` fails with `ENOSPC`, yet
`sys_open` of the existing file `A` returns 0, leaves `*retval` as it was, and
leaves the object it created alive with reference count 1 and in no slot. -/
theorem sys_open_full_table_leaks :
    (filetable_place k_full.p_filetable (some 2) (-7)).1 = ENOSPC ∧
    sys_open ramfs k_full "A" O_RDONLY 0 (-7) none =
      (0, { disk := diskAB,
            heap := [some ⟨0, 0, 0, 1⟩, some ⟨1, 0, 0, 1⟩, some ⟨0, 0, 0, 1⟩],
            p_filetable := [some 0, some 1] }, -7) ∧
    refcount_at (sys_open ramfs k_full "A" O_RDONLY 0 (-7) none).2.1.heap 2 = 1 :=
  ⟨rfl, rfl, rfl⟩

/-- C5: a read of 4 bytes from the 2-byte file `S` at offset 0 transfers 2
bytes and leaves the offset at 4; a read of 4 bytes at the end of the file
transfers nothing and moves the offset from 2 to 6. -/
theorem sys_read_offset_advances_by_size :
    (ramfs.VOP_READ k_short.disk 0 0 4).2.2 = [21, 22] ∧
    sys_read ramfs k_short 0 [0, 0, 0, 0] 4 none =
      some (0, { disk := [("S", [21, 22])], heap := [some ⟨0, 0, 4, 2⟩],
                 p_filetable := [some 0] }, [21, 22, 0, 0]) ∧
    (ramfs.VOP_READ k_eof.disk 0 2 4).2.2 = [] ∧
    sys_read ramfs k_eof 0 [0, 0, 0, 0] 4 none =
      some (0, { disk := [("S", [21, 22])], heap := [some ⟨0, 0, 6, 2⟩],
                 p_filetable := [some 0] }, [0, 0, 0, 0]) :=
  ⟨rfl, rfl, rfl, rfl⟩

/-- C6: on `k_one` a read of 4 bytes through descriptor 0 transfers 4 bytes and
`sys_read` returns 0; a write of 4 bytes writes 4 bytes and `sys_write`
returns 0. -/
theorem sys_read_write_return_status :
    (ramfs.VOP_READ k_one.disk 0 0 4).2.2.length = 4 ∧
    (sys_read ramfs k_one 0 [0, 0, 0, 0] 4 none).map Prod.fst = some 0 ∧
    (ramfs.VOP_WRITE k_one.disk 0 0 [9, 9, 9, 9]).2.2 = 4 ∧
    (sys_write ramfs k_one 0 [9, 9, 9, 9] 4 none).map Prod.fst = some 0 :=
  ⟨rfl, rfl, rfl, rfl⟩

/-- C8: `sys_meld` of `A` (8 bytes) and `B` (4 bytes) into the empty `OUT`
returns 0 after four rounds: `OUT` holds 32 bytes, the chunks read last being
written again in the rounds after the end of a source, and not the 12 bytes
`A[0..4) ++ B[0..4) ++ A[4..8)`. -/
theorem sys_meld_four_rounds :
    sys_meld ramfs k_meld "A" "B" "OUT" [70, 71, 72, 73] [80, 81, 82, 83] none =
      some (0, { disk := [("A", [1, 2, 3, 4, 5, 6, 7, 8]), ("B", [11, 12, 13, 14]),
                          ("OUT", [1, 2, 3, 4, 11, 12, 13, 14, 5, 6, 7, 8, 11, 12, 13, 14,
                                   5, 6, 7, 8, 11, 12, 13, 14, 5, 6, 7, 8, 11, 12, 13, 14])],
                 heap := [some ⟨0, 0, 16, 4⟩, some ⟨1, 0, 16, 4⟩, some ⟨2, 37, 32, 8⟩],
                 p_filetable := [none, none, none, none] }) ∧
    (sys_meld ramfs k_meld "A" "B" "OUT" [70, 71, 72, 73] [80, 81, 82, 83] none).map (fun r => (r.2.disk.getD 2 ("", [])).2) ≠
      some [1, 2, 3, 4, 11, 12, 13, 14, 5, 6, 7, 8] := by
  refine ⟨rfl, ?_⟩
  decide

/-- C9: when the second source `C` does not exist, `sys_meld` returns the
error of the open and leaves the object of the first source alive with
reference count 1; when every read fails with `IoError`, `sys_meld` returns 0,
has written the initial contents of its two buffers to `OUT` and leaves the
three objects alive. -/
theorem sys_meld_failure_not_unwound :
    sys_meld ramfs k_empty "A" "C" "OUT" [70, 71, 72, 73] [80, 81, 82, 83] none =
      some (ENOENT, { disk := diskAB, heap := [some ⟨0, 0, 0, 1⟩],
                      p_filetable := [none, none, none, none] }) ∧
    refcount_at [some ⟨0, 0, 0, 1⟩] 0 = 1 ∧
    (sys_read brokenfs k_one 0 [0, 0, 0, 0] 4 none).map Prod.fst = some IoError ∧
    sys_meld brokenfs k_meld "A" "B" "OUT" [70, 71, 72, 73] [80, 81, 82, 83] none =
      some (0, { disk := [("A", [1, 2, 3, 4, 5, 6, 7, 8]), ("B", [11, 12, 13, 14]),
                          ("OUT", [70, 71, 72, 73, 80, 81, 82, 83, 70, 71, 72, 73, 80, 81, 82, 83,
                                   70, 71, 72, 73, 80, 81, 82, 83, 70, 71, 72, 73, 80, 81, 82,
                                   83])],
                 heap := [some ⟨0, 0, 16, 4⟩, some ⟨1, 0, 16, 4⟩, some ⟨2, 37, 32, 8⟩],
                 p_filetable := [none, none, none, none] }) :=
  ⟨rfl, rfl, rfl, rfl⟩

/-- C10: from the empty table, `sys_open` of `A` gives descriptor 0 and an
object with reference count 1; after `sys_read` the count is 2 while one slot
refers to the object; after `sys_close` no slot refers to it and it is still
alive with reference count 1. -/
theorem open_read_close_keeps_object :
    sys_open ramfs k_empty "A" O_RDONLY 0 (-7) none =
      (0, { disk := diskAB, heap := [some ⟨0, 0, 0, 1⟩],
            p_filetable := [some 0, none, none, none] }, 0) ∧
    sys_read ramfs { disk := diskAB, heap := [some ⟨0, 0, 0, 1⟩],
                     p_filetable := [some 0, none, none, none] } 0 [0, 0, 0, 0] 4 none =
      some (0, { disk := diskAB, heap := [some ⟨0, 0, 4, 2⟩],
                 p_filetable := [some 0, none, none, none] }, [1, 2, 3, 4]) ∧
    refcount_at [some ⟨0, 0, 4, 2⟩] 0 = 2 ∧
    List.count (some 0) ([some 0, none, none, none] : List Ptr) = 1 ∧
    sys_close ramfs { disk := diskAB, heap := [some ⟨0, 0, 4, 2⟩],
                      p_filetable := [some 0, none, none, none] } 0 none =
      some (0, { disk := diskAB, heap := [some ⟨0, 0, 4, 1⟩],
                 p_filetable := [none, none, none, none] }) ∧
    refcount_at [some ⟨0, 0, 4, 1⟩] 0 = 1 ∧
    List.count (some 0) ([none, none, none, none] : List Ptr) = 0 :=
  ⟨rfl, rfl, rfl, rfl, rfl, rfl, rfl⟩

end FileSyscalls
